import Mathlib

/-!
Verification of the to-do application in `app.py` (a Streamlit front end over a
SQLite table accessed through SQLModel, plus a Gemini translation client and a
per-session translation cache).

The persistent store is modelled as a `List TodoItem` in natural storage
(insertion) order, which is exactly what `SELECT` without `ORDER BY` returns for
this append/update/delete workload.  The SQLite table is created with
`id INTEGER ... PRIMARY KEY` and no `AUTOINCREMENT` (the SQLModel default for
`id: Optional[int] = Field(default=None, primary_key=True)`), so on insert the
database assigns the new row the rowid one larger than the largest rowid
currently in the table, or `1` when the table is empty.  That allocation rule is
modelled by `next_id`.  Primary-key uniqueness means looking a row up by id,
updating it in place, or deleting it can be modelled with `find?`, `map` and
`filter` over the id.
-/

/-- Model of a Python `datetime.date` value: a plain calendar date. -/
structure PyDate where
  year : Nat
  month : Nat
  day : Nat
deriving DecidableEq, Repr

/-- Zero-pads a numeral to two digits, as Python date formatting does. -/
def pad2 (n : Nat) : String :=
  if n < 10 then "0" ++ toString n else toString n

/-- Zero-pads a numeral to four digits, as Python date formatting does. -/
def pad4 (n : Nat) : String :=
  if n < 10 then "000" ++ toString n
  else if n < 100 then "00" ++ toString n
  else if n < 1000 then "0" ++ toString n
  else toString n

/-- Python `str(date)`: ISO `YYYY-MM-DD`. -/
def pyDateToString (d : PyDate) : String :=
  pad4 d.year ++ "-" ++ pad2 d.month ++ "-" ++ pad2 d.day

/-- The persisted entity `TodoItem` of `app.py`: `id` integer primary key,
`title` required text, `description`/`priority`/`due_date` optional,
`completed` boolean defaulting to false. -/
structure TodoItem where
  id : Nat
  title : String
  description : Option String
  completed : Bool
  priority : Option String
  due_date : Option PyDate
deriving DecidableEq, Repr

/-- The pydantic request model `TodoItemCreate` of `app.py`: no `id` field —
the caller cannot supply an id. -/
structure TodoItemCreate where
  title : String
  description : Option String
  priority : Option String
  due_date : Option PyDate
deriving DecidableEq, Repr

/-- The pydantic request model `TodoItemUpdate` of `app.py`.  Every field is
optional; `none` here models a field NOT set in the request, so that
`model_dump(exclude_unset=True)` keeps exactly the `some` fields.  The inner
`Option` on `description`/`priority`/`due_date` is the nullable column value
itself. -/
structure TodoItemUpdate where
  title : Option String
  description : Option (Option String)
  completed : Option Bool
  priority : Option (Option String)
  due_date : Option (Option PyDate)
deriving DecidableEq, Repr

/-- Model of `todo.sqlmodel_update(todo_update.model_dump(exclude_unset=True))`:
overwrite exactly the fields present in the dump, keep every other field.
`TodoItemUpdate` has no `id` field, so `id` is always kept. -/
def sqlmodel_update (todo : TodoItem) (u : TodoItemUpdate) : TodoItem :=
  { id := todo.id
    title := u.title.getD todo.title
    description := u.description.getD todo.description
    completed := u.completed.getD todo.completed
    priority := u.priority.getD todo.priority
    due_date := u.due_date.getD todo.due_date }

/-- The `TodoItemUpdate(completed=True)` request built by the
"Mark Completed" button: only `completed` is set. -/
def markCompletedUpdate : TodoItemUpdate :=
  { title := none, description := none, completed := some true
    priority := none, due_date := none }

/-- Function `get_all_todos_db`: `SELECT` every row — the store list itself. -/
def get_all_todos_db (store : List TodoItem) : List TodoItem :=
  store

/-- SQLite's rowid allocation for an `INTEGER PRIMARY KEY` column without
`AUTOINCREMENT`: one more than the largest rowid currently in the table
(`1` on an empty table). -/
def next_id (store : List TodoItem) : Nat :=
  (store.map (fun t => t.id)).foldr Nat.max 0 + 1

/-- Function `create_todo_db`: validate the request into a row (`id` starts out unset),
insert it, and return the refreshed row carrying the id the database
assigned. -/
def create_todo_db (store : List TodoItem) (c : TodoItemCreate) :
    TodoItem × List TodoItem :=
  let db_todo : TodoItem :=
    { id := next_id store, title := c.title, description := c.description
      completed := false, priority := c.priority, due_date := c.due_date }
  (db_todo, store ++ [db_todo])

/-- Function `update_todo_db`: `session.get` the row by primary key; `None` leaves the
store untouched, otherwise apply the exclude-unset merge, commit, and return
the refreshed row. -/
def update_todo_db (store : List TodoItem) (todo_id : Nat)
    (u : TodoItemUpdate) : Option TodoItem × List TodoItem :=
  match store.find? (fun t => t.id == todo_id) with
  | none => (none, store)
  | some todo =>
    (some (sqlmodel_update todo u),
     store.map (fun t => if t.id == todo_id then sqlmodel_update t u else t))

/-- Function `delete_todo_db`: `session.get` the row by primary key; `False` when
absent, otherwise delete the row and return `True`. -/
def delete_todo_db (store : List TodoItem) (todo_id : Nat) :
    Bool × List TodoItem :=
  if store.any (fun t => t.id == todo_id) then
    (true, store.filter (fun t => t.id != todo_id))
  else
    (false, store)

/-- The configured Gemini model, reduced to its one observable behaviour:
`generate_content` on a prompt either returns a response text (`some`) or
raises (`none`). -/
abbrev ApiModel := String → Option String

/-- The module-level Gemini configuration of `app.py`: `os.getenv` yields the
credential or nothing, and `if not GOOGLE_API_KEY:` treats both a missing and
an empty value as absent, leaving `gemini_model = None`.  Only with a
non-empty key is a model constructed. -/
def configure_gemini (google_api_key : Option String)
    (mkModel : String → ApiModel) : Option ApiModel :=
  match google_api_key with
  | none => none
  | some key => if key.length == 0 then none else some (mkModel key)

/-- Outcome of one `translate_text_gemini` call: the returned
`Optional[str]`, plus how many calls to the external API were made while
producing it (so "no network call attempted" is statable). -/
structure TranslateOutcome where
  result : Option String
  api_calls : Nat
deriving DecidableEq, Repr

/-- Function `translate_text_gemini`: bail out with `None` before any API use when no
model is configured; otherwise build the prompt, call `generate_content`
once, and return its text, or `None` when the call raises (the exception is
caught and displayed). -/
def translate_text_gemini (gemini_model : Option ApiModel)
    (text target_language : String) : TranslateOutcome :=
  match gemini_model with
  | none => { result := none, api_calls := 0 }
  | some model =>
    let prompt := "Translate the following text into " ++ target_language
      ++ ": " ++ text
    match model prompt with
    | some translated_content =>
      { result := some translated_content, api_calls := 1 }
    | none => { result := none, api_calls := 1 }

/-!
The session translation cache `st.session_state.translations` is a Python dict
from item id to a dict from target-language name to translated string.  Python
dicts keep insertion order, update existing keys in place, and hold each key
once; an association list with unique keys models that, with `find?` as `in` /
indexing, appending for a new key, `map` for updating the value at an existing
key, and `filter` for `del`.
-/

/-- The session translation cache: item id ↦ (language name ↦ translation). -/
abbrev Translations := List (Nat × List (String × String))

/-- One inner-dict assignment `d[lang] = s`. -/
def dict_set (d : List (String × String)) (lang s : String) :
    List (String × String) :=
  if d.any (fun q => q.1 == lang) then
    d.map (fun q => if q.1 == lang then (q.1, s) else q)
  else
    d ++ [(lang, s)]

/-- Cache read as the rendering code performs it:
`todo.id in translations and target_language in translations[todo.id]`
guarding `translations[todo.id][target_language]`; `none` is "absent". -/
def cache_lookup (c : Translations) (todo_id : Nat) (lang : String) :
    Option String :=
  match c.find? (fun p => p.1 == todo_id) with
  | none => none
  | some p =>
    match p.2.find? (fun q => q.1 == lang) with
    | none => none
    | some q => some q.2

/-- The cache write of the translate handler:
`if todo.id not in translations: translations[todo.id] = {}` followed by
`translations[todo.id][target_language] = translated_text`. -/
def cache_put (c : Translations) (todo_id : Nat) (lang s : String) :
    Translations :=
  if c.any (fun p => p.1 == todo_id) then
    c.map (fun p => if p.1 == todo_id then (p.1, dict_set p.2 lang s) else p)
  else
    c ++ [(todo_id, [(lang, s)])]

/-- The composite text the translate button submits: the title, with the
description, priority and due date appended when truthy (for the two strings
that means non-`None` and non-empty; a date only has to be non-`None`). -/
def compose_text (todo : TodoItem) : String :=
  let t1 := todo.title
  let t2 := match todo.description with
    | some d =>
      if d.length != 0 then t1 ++ " (Description: " ++ d ++ ")" else t1
    | none => t1
  let t3 := match todo.priority with
    | some p =>
      if p.length != 0 then t2 ++ " (Priority: " ++ p ++ ")" else t2
    | none => t2
  match todo.due_date with
  | some d => t3 ++ " (Due Date: " ++ pyDateToString d ++ ")"
  | none => t3

/-- The translate-button handler: translate the composite text and, only when
a truthy (non-`None`, non-empty) translation came back, store it in the
session cache; otherwise the cache is left as it was. -/
def translate_button_handler (gemini_model : Option ApiModel)
    (c : Translations) (todo : TodoItem) (target_language : String) :
    Translations :=
  let outcome := translate_text_gemini gemini_model (compose_text todo)
    target_language
  match outcome.result with
  | some s => if s.length != 0 then cache_put c todo.id target_language s else c
  | none => c

/-- The delete-button handler (identical for pending and completed rows):
`delete_todo_db(todo.id)` followed by
`if todo.id in translations: del translations[todo.id]`. -/
def delete_button_handler (store : List TodoItem) (c : Translations)
    (todo_id : Nat) : List TodoItem × Translations :=
  let store2 := (delete_todo_db store todo_id).2
  let c2 :=
    if c.any (fun p => p.1 == todo_id) then
      c.filter (fun p => p.1 != todo_id)
    else c
  (store2, c2)

/-- Outcome of submitting the add-todo form. -/
inductive AddResult
  | added
  | warning
deriving DecidableEq, Repr

/-- The add-todo form submit path: priority "None" becomes null; a truthy
(non-empty) title leads to `create_todo_db`, an empty one to a warning with
no store call. -/
def add_todo_form_submit (store : List TodoItem)
    (new_title new_description new_priority : String)
    (new_due_date : Option PyDate) : AddResult × List TodoItem :=
  let submitted_priority :=
    if new_priority != "None" then some new_priority else none
  if new_title.length != 0 then
    (AddResult.added,
     (create_todo_db store
       { title := new_title, description := some new_description
         priority := submitted_priority, due_date := new_due_date }).2)
  else
    (AddResult.warning, store)

/-- List `incomplete_todos`: the pending partition of the rendered list. -/
def incomplete_todos (todos : List TodoItem) : List TodoItem :=
  todos.filter (fun todo => !todo.completed)

/-- List `completed_todos`: the done partition of the rendered list. -/
def completed_todos (todos : List TodoItem) : List TodoItem :=
  todos.filter (fun todo => todo.completed)

/-!
Shared lemmas about id-keyed lists: a `filter` that drops a key leaves no
element with that key, `any`/`find?`/`all` interplay, and the bound used by
the rowid allocator.
-/

/-- Concrete item used to instantiate theorems with hypotheses. -/
def sampleItem : TodoItem :=
  { id := 1, title := "Buy milk", description := some "from the corner shop"
    completed := false, priority := some "High"
    due_date := some { year := 2025, month := 1, day := 15 } }

/-- Second concrete item, already completed. -/
def sampleItem2 : TodoItem :=
  { id := 2, title := "Walk dog", description := none
    completed := true, priority := none, due_date := none }

/-- Concrete create request used by concrete runs. -/
def sampleCreate : TodoItemCreate :=
  { title := "Buy milk", description := none, priority := none
    due_date := none }

/-- After filtering out key `i`, no element with key `i` remains. -/
theorem any_key_filter_eq_false {α : Type} (key : α → Nat) (i : Nat)
    (l : List α) :
    ((l.filter fun x => key x != i).any fun x => key x == i) = false := by
  induction l with
  | nil => rfl
  | cons y ys ih =>
    by_cases h : key y = i
    · simp [List.filter_cons, h, ih]
    · simp [List.filter_cons, h, List.any_cons, ih]

/-- When `any` finds no element with key `i`, `find?` returns `none`. -/
theorem find?_key_eq_none_of_any_eq_false {α : Type} (key : α → Nat)
    (i : Nat) (l : List α) (h : (l.any fun x => key x == i) = false) :
    (l.find? fun x => key x == i) = none := by
  rw [List.find?_eq_none]
  intro x hx
  rw [List.any_eq_false] at h
  exact h x hx

/-- After filtering out key `i`, `find?` for key `i` returns `none`. -/
theorem find?_key_filter_eq_none {α : Type} (key : α → Nat) (i : Nat)
    (l : List α) :
    ((l.filter fun x => key x != i).find? fun x => key x == i) = none :=
  find?_key_eq_none_of_any_eq_false key i _ (any_key_filter_eq_false key i l)

/-- A filtered list satisfies the filtering predicate everywhere. -/
theorem all_filter_self {α : Type} (p : α → Bool) (l : List α) :
    (l.filter p).all p = true := by
  rw [List.all_eq_true]
  intro x hx
  exact (List.mem_filter.mp hx).2

/-- When `any` finds no element with key `i`, every element has key ≠ `i`. -/
theorem all_key_ne_of_any_eq_false {α : Type} (key : α → Nat) (i : Nat)
    (l : List α) (h : (l.any fun x => key x == i) = false) :
    (l.all fun x => key x != i) = true := by
  rw [List.all_eq_true]
  intro x hx
  rw [List.any_eq_false] at h
  have hne := h x hx
  simp only [beq_iff_eq] at hne
  simpa [bne_iff_ne] using hne

/-- Every member of a list of naturals is bounded by its `foldr max 0`. -/
theorem mem_le_foldr_max (xs : List Nat) :
    ∀ x ∈ xs, x ≤ xs.foldr Nat.max 0 := by
  induction xs with
  | nil => intro x hx; cases hx
  | cons y ys ih =>
    intro x hx
    rcases List.mem_cons.mp hx with h | h
    · subst h; exact Nat.le_max_left _ _
    · exact Nat.le_trans (ih x h) (Nat.le_max_right _ _)

/-- Updating the row with id `i` in place keeps `find?` pointing at the
(updated) row; `sqlmodel_update` never changes the id. -/
theorem find?_map_update (store : List TodoItem) (i : Nat)
    (u : TodoItemUpdate) (t : TodoItem)
    (h : (store.find? fun x => x.id == i) = some t) :
    ((store.map fun x => if x.id == i then sqlmodel_update x u else x).find?
      fun x => x.id == i) = some (sqlmodel_update t u) := by
  induction store with
  | nil => simp at h
  | cons y ys ih =>
    by_cases hy : y.id = i
    · have hb : (y.id == i) = true := beq_iff_eq.mpr hy
      rw [List.find?_cons_of_pos (p := fun x : TodoItem => x.id == i) _ hb] at h
      have ht : y = t := Option.some.inj h
      subst ht
      simp only [List.map_cons, if_pos hb]
      exact List.find?_cons_of_pos (p := fun x : TodoItem => x.id == i) _ hb
    · have hb : ¬ (y.id == i) = true := by simp [hy]
      rw [List.find?_cons_of_neg (p := fun x : TodoItem => x.id == i) _ hb] at h
      simp only [List.map_cons, if_neg hb]
      rw [List.find?_cons_of_neg (p := fun x : TodoItem => x.id == i) _ hb]
      exact ih h

/-- A delete call on a store with no row of id `i` reports `false` and leaves
the store untouched. -/
theorem delete_todo_db_of_any_eq_false (store : List TodoItem) (i : Nat)
    (h : (store.any fun t => t.id == i) = false) :
    delete_todo_db store i = (false, store) := by
  simp [delete_todo_db, h]

/-- After any delete call for id `i`, the resulting store has no row of
id `i`. -/
theorem delete_todo_db_any_eq_false (store : List TodoItem) (i : Nat) :
    ((delete_todo_db store i).2.any fun t => t.id == i) = false := by
  cases h : store.any fun t => t.id == i with
  | false => simp [delete_todo_db, h]
  | true =>
    simp [delete_todo_db, h, any_key_filter_eq_false]

/-!
Claim theorems.
-/

/-- C1: for every existing item id and partial update request, `update_todo_db`
applies only the fields explicitly set in the request — every unset field
(including the id) retains its pre-update value — and in particular the
"Mark Completed" request `TodoItemUpdate(completed=True)` changes nothing but
the completed flag. -/
theorem todo_update_preserves_unset_fields (store : List TodoItem) (i : Nat)
    (u : TodoItemUpdate) (t : TodoItem)
    (h : (store.find? fun x => x.id == i) = some t) :
    (update_todo_db store i u).1 = some (sqlmodel_update t u) ∧
    (sqlmodel_update t u).id = t.id ∧
    (u.title = none → (sqlmodel_update t u).title = t.title) ∧
    (u.description = none →
      (sqlmodel_update t u).description = t.description) ∧
    (u.completed = none → (sqlmodel_update t u).completed = t.completed) ∧
    (u.priority = none → (sqlmodel_update t u).priority = t.priority) ∧
    (u.due_date = none → (sqlmodel_update t u).due_date = t.due_date) ∧
    sqlmodel_update t markCompletedUpdate = { t with completed := true } := by
  refine ⟨?_, rfl, ?_, ?_, ?_, ?_, ?_, rfl⟩
  · unfold update_todo_db
    rw [h]
  · intro hu; simp [sqlmodel_update, hu]
  · intro hu; simp [sqlmodel_update, hu]
  · intro hu; simp [sqlmodel_update, hu]
  · intro hu; simp [sqlmodel_update, hu]
  · intro hu; simp [sqlmodel_update, hu]

/-- Witness for C1 at a concrete store and the concrete completed-only
request. -/
theorem todo_update_preserves_unset_fields_witness :
    (update_todo_db [sampleItem] 1 markCompletedUpdate).1
      = some (sqlmodel_update sampleItem markCompletedUpdate) ∧
    sqlmodel_update sampleItem markCompletedUpdate
      = { sampleItem with completed := true } :=
  ⟨(todo_update_preserves_unset_fields [sampleItem] 1 markCompletedUpdate
      sampleItem rfl).1,
   (todo_update_preserves_unset_fields [sampleItem] 1 markCompletedUpdate
      sampleItem rfl).2.2.2.2.2.2.2⟩

/-- C2: submitting the add form with an empty (hence also a missing) title is
rejected with a warning, `create_todo_db` is never reached, and the store —
in particular its item count — is unchanged. -/
theorem todo_add_empty_title_rejected (store : List TodoItem)
    (new_description new_priority : String) (new_due_date : Option PyDate)
    (new_title : String) (h : new_title = "") :
    (add_todo_form_submit store new_title new_description new_priority
        new_due_date).1 = AddResult.warning ∧
    (add_todo_form_submit store new_title new_description new_priority
        new_due_date).2 = store ∧
    (add_todo_form_submit store new_title new_description new_priority
        new_due_date).2.length = store.length := by
  subst h
  exact ⟨rfl, rfl, rfl⟩

/-- Witness for C2 on a concrete one-item store. -/
theorem todo_add_empty_title_rejected_witness :
    (add_todo_form_submit [sampleItem] "" "notes" "High" none).2
      = [sampleItem] :=
  (todo_add_empty_title_rejected [sampleItem] "notes" "High" none "" rfl).2.1

/-- C3 counterexample: create on an empty store, delete the created row (which
did exist: the delete reports `true`), create again — SQLite hands out the
same rowid `1` both times, so the second create's id equals the id of an item
already created earlier in this store instance. -/
theorem todo_create_id_reuse_counterexample :
    (delete_todo_db (create_todo_db [] sampleCreate).2
        (create_todo_db [] sampleCreate).1.id).1 = true ∧
    (create_todo_db
        (delete_todo_db (create_todo_db [] sampleCreate).2
          (create_todo_db [] sampleCreate).1.id).2 sampleCreate).1.id
      = (create_todo_db [] sampleCreate).1.id := by
  exact ⟨rfl, rfl⟩

/-- C3 (amended): each create returns the item under the id the store assigns
from the current table contents — never taken from the request, which has no
id field — and that id is distinct from the id of every item currently in
the store (ids ever created can recur once the row holding the maximum id is
deleted). -/
theorem todo_create_id_fresh_and_store_assigned (store : List TodoItem)
    (c : TodoItemCreate) :
    (create_todo_db store c).1.id = next_id store ∧
    (store.all fun t => t.id != (create_todo_db store c).1.id) = true ∧
    ∀ c2 : TodoItemCreate,
      (create_todo_db store c2).1.id = (create_todo_db store c).1.id := by
  refine ⟨rfl, ?_, fun c2 => rfl⟩
  rw [List.all_eq_true]
  intro t ht
  have hle : t.id ≤ (store.map fun t => t.id).foldr Nat.max 0 :=
    mem_le_foldr_max _ t.id (List.mem_map_of_mem _ ht)
  have hne : t.id ≠ next_id store := by
    unfold next_id
    omega
  simpa [bne_iff_ne, create_todo_db] using hne

/-- C4: delete reports `true` exactly when a row with the id exists, and after
the call the store returned by `get_all_todos_db` holds no row with that id
(the row is permanently removed; a missing id yields `false`). -/
theorem todo_delete_presence_and_removal (store : List TodoItem) (i : Nat) :
    (delete_todo_db store i).1 = (store.any fun t => t.id == i) ∧
    ((get_all_todos_db (delete_todo_db store i).2).all
      fun t => t.id != i) = true := by
  constructor
  · cases h : store.any fun t => t.id == i with
    | false => simp [delete_todo_db, h]
    | true => simp [delete_todo_db, h]
  · cases h : store.any fun t => t.id == i with
    | false =>
      unfold get_all_todos_db
      rw [delete_todo_db_of_any_eq_false store i h]
      exact all_key_ne_of_any_eq_false (fun t : TodoItem => t.id) i store h
    | true =>
      unfold get_all_todos_db delete_todo_db
      rw [if_pos h]
      exact all_filter_self (fun t : TodoItem => t.id != i) store

/-- C5: delete is idempotent in effect — a second delete of the same id always
reports not-found and leaves the store exactly as the first call left it, and
a delete whose target is absent changes nothing (so the item count is
unaltered). -/
theorem todo_delete_idempotent (store : List TodoItem) (i : Nat) :
    delete_todo_db (delete_todo_db store i).2 i
      = (false, (delete_todo_db store i).2) ∧
    ((delete_todo_db store i).1 = false →
      (delete_todo_db store i).2 = store) ∧
    ((store.any fun t => t.id == i) = false →
      (delete_todo_db store i).2.length = store.length) := by
  refine ⟨?_, ?_, ?_⟩
  · exact delete_todo_db_of_any_eq_false _ i
      (delete_todo_db_any_eq_false store i)
  · intro h1
    cases h : store.any fun t => t.id == i with
    | false => simp [delete_todo_db, h]
    | true => simp [delete_todo_db, h] at h1
  · intro h
    rw [delete_todo_db_of_any_eq_false store i h]

/-- Witness for C5: deleting id 1 from a store without it leaves the store and
its count as they were. -/
theorem todo_delete_idempotent_witness :
    (delete_todo_db [sampleItem2] 1).2 = [sampleItem2] ∧
    (delete_todo_db [sampleItem2] 1).2.length = [sampleItem2].length :=
  ⟨(todo_delete_idempotent [sampleItem2] 1).2.1 rfl,
   (todo_delete_idempotent [sampleItem2] 1).2.2 rfl⟩

/-- C6: updating an absent id signals `None` and leaves the store unchanged;
updating a present id returns the post-update item, which is exactly the row
now persisted under that id. -/
theorem todo_update_notfound_and_result (store : List TodoItem) (i : Nat)
    (u : TodoItemUpdate) :
    ((store.find? fun t => t.id == i) = none →
      update_todo_db store i u = (none, store)) ∧
    ∀ t, (store.find? fun x => x.id == i) = some t →
      (update_todo_db store i u).1 = some (sqlmodel_update t u) ∧
      ((get_all_todos_db (update_todo_db store i u).2).find?
        fun x => x.id == i) = some (sqlmodel_update t u) := by
  constructor
  · intro h
    unfold update_todo_db
    rw [h]
  · intro t h
    constructor
    · unfold update_todo_db
      rw [h]
    · unfold get_all_todos_db update_todo_db
      rw [h]
      exact find?_map_update store i u t h

/-- Witness for C6: a hit on a one-item store and a miss on the empty store. -/
theorem todo_update_notfound_and_result_witness :
    (update_todo_db [sampleItem2] 2 markCompletedUpdate).1
      = some (sqlmodel_update sampleItem2 markCompletedUpdate) ∧
    update_todo_db [] 2 markCompletedUpdate = (none, []) :=
  ⟨((todo_update_notfound_and_result [sampleItem2] 2 markCompletedUpdate).2
      sampleItem2 rfl).1,
   (todo_update_notfound_and_result [] 2 markCompletedUpdate).1 rfl⟩

/-- C7: the delete button removes every session-cache translation entry of the
deleted item — afterwards the cache lookup for that id is absent for every
language. -/
theorem todo_delete_removes_cache_entries (store : List TodoItem)
    (c : Translations) (i : Nat) (lang : String) :
    cache_lookup (delete_button_handler store c i).2 i lang = none := by
  have h2 : ((delete_button_handler store c i).2.find?
      fun p => p.1 == i) = none := by
    cases h : c.any fun p => p.1 == i with
    | false =>
      unfold delete_button_handler
      rw [if_neg (by simp [h])]
      exact find?_key_eq_none_of_any_eq_false
        (fun p : Nat × List (String × String) => p.1) i c h
    | true =>
      unfold delete_button_handler
      rw [if_pos h]
      exact find?_key_filter_eq_none
        (fun p : Nat × List (String × String) => p.1) i c
  unfold cache_lookup
  rw [h2]

/-- C8: with the credential missing (or empty, which `if not GOOGLE_API_KEY:`
treats the same), no Gemini model is configured, and every translate call
returns the unavailable signal `None` with zero calls made to the external
API — the failure is decided before any network activity. -/
theorem translate_without_credential_no_call (mkModel : String → ApiModel)
    (text target_language : String) :
    translate_text_gemini (configure_gemini none mkModel) text
        target_language = { result := none, api_calls := 0 } ∧
    translate_text_gemini (configure_gemini (some "") mkModel) text
        target_language = { result := none, api_calls := 0 } :=
  ⟨rfl, rfl⟩

/-- C9: the view splits the fetched list into the pending rows (`completed`
false) and the done rows (`completed` true): each sublist keeps the store
order, contains only rows of its flag, together they account for every row
exactly once, and a row lands in one of the two partitions exactly according
to its flag. -/
theorem view_partitions_by_completion (todos : List TodoItem) :
    (incomplete_todos todos).Sublist todos ∧
    (completed_todos todos).Sublist todos ∧
    ((incomplete_todos todos).all fun t => !t.completed) = true ∧
    ((completed_todos todos).all fun t => t.completed) = true ∧
    (incomplete_todos todos).length + (completed_todos todos).length
      = todos.length ∧
    ∀ t : TodoItem, t ∈ todos ↔
      t ∈ incomplete_todos todos ∨ t ∈ completed_todos todos := by
  refine ⟨List.filter_sublist todos, List.filter_sublist todos,
    all_filter_self _ _, all_filter_self _ _, ?_, ?_⟩
  · induction todos with
    | nil => rfl
    | cons x xs ih =>
      cases h : x.completed with
      | false =>
        simp [incomplete_todos, completed_todos, List.filter_cons, h]
          at ih ⊢
        omega
      | true =>
        simp [incomplete_todos, completed_todos, List.filter_cons, h]
          at ih ⊢
        omega
  · intro t
    simp only [incomplete_todos, completed_todos, List.mem_filter]
    cases h : t.completed with
    | false => simp [h]
    | true => simp [h]

/-- C10: a failed translation leaves the session cache untouched — when
`translate_text_gemini` produces no result (missing credential or a raising
call), the translate-button handler adds and modifies nothing. -/
theorem failed_translation_leaves_cache_unchanged
    (gemini_model : Option ApiModel) (c : Translations) (todo : TodoItem)
    (target_language : String)
    (h : (translate_text_gemini gemini_model (compose_text todo)
        target_language).result = none) :
    translate_button_handler gemini_model c todo target_language = c := by
  simp [translate_button_handler, h]

/-- Witness for C10: an unconfigured client on a concrete item leaves a
concrete cache exactly as it was. -/
theorem failed_translation_leaves_cache_unchanged_witness :
    translate_button_handler none [(1, [("Spanish", "Comprar leche")])]
        sampleItem "Spanish" = [(1, [("Spanish", "Comprar leche")])] :=
  failed_translation_leaves_cache_unchanged none
    [(1, [("Spanish", "Comprar leche")])] sampleItem "Spanish" rfl
